import Mathlib

/-!
Shallow embedding of the query-to-scrape orchestration pipeline of
`src/background.js` (class `WebScrapingOrchestrator`), and proofs of the
spec claims about it.

Modelling conventions:
* JS `Map` objects become association lists with unique keys
  (`mapGet`, `mapSet`, `mapDelete` mirror `Map.get`, `Map.set`, `Map.delete`).
* `Date.now()` is threaded as an explicit `now : Nat` argument.
* External asynchronous effects (the `fetch` to the AI endpoint, the
  browser tab APIs, `JSON.parse` of opaque model output) are supplied as
  environment values; every observable side effect is recorded in a
  returned list of `Effect`s so that claims about network calls and tab
  lifecycle can be stated.
* Thrown JS exceptions become `Except String` results carrying the
  exception message; functions whose source catches every exception are
  total.
-/

namespace Scraper

instance {ε α : Type} [DecidableEq ε] [DecidableEq α] : DecidableEq (Except ε α)
  | .ok a, .ok b =>
      if h : a = b then .isTrue (by rw [h]) else .isFalse (by simp [h])
  | .ok _, .error _ => .isFalse (by simp)
  | .error _, .ok _ => .isFalse (by simp)
  | .error a, .error b =>
      if h : a = b then .isTrue (by rw [h]) else .isFalse (by simp [h])

/-- JS `Map.prototype.get`: the value stored for `k`, if any. -/
def mapGet {α : Type} (m : List (String × α)) (k : String) : Option α :=
  (m.find? (fun p => p.1 == k)).map (fun p => p.2)

/-- JS `Map.prototype.set`: replace the entry for `k` if present, else append. -/
def mapSet {α : Type} (m : List (String × α)) (k : String) (v : α) : List (String × α) :=
  match m with
  | [] => [(k, v)]
  | p :: rest => if p.1 == k then (k, v) :: rest else p :: mapSet rest k v

/-- JS `Map.prototype.delete`: remove the (unique) entry for `k`. -/
def mapDelete {α : Type} (m : List (String × α)) (k : String) : List (String × α) :=
  match m with
  | [] => []
  | p :: rest => if p.1 == k then rest else p :: mapDelete rest k

/-- JS `String.prototype.toLowerCase` (ASCII-faithful model). -/
def lowerStr (s : String) : String :=
  String.mk (s.toList.map Char.toLower)

/-- JS `String.prototype.trim`: strip leading and trailing whitespace. -/
def strTrim (s : String) : String :=
  String.mk (((s.toList.dropWhile Char.isWhitespace).reverse.dropWhile Char.isWhitespace).reverse)

/-- `first.startsWith second` on character lists: `startsWithL needle hay`
is true when `needle` is an initial segment of `hay`. -/
def startsWithL : List Char → List Char → Bool
  | [], _ => true
  | _ :: _, [] => false
  | b :: bs, a :: as => b == a && startsWithL bs as

/-- JS `String.prototype.includes`, on character lists: does `needle`
occur contiguously inside `hay`? -/
def occursIn (needle hay : List Char) : Bool :=
  match hay with
  | [] => needle.isEmpty
  | _ :: t => startsWithL needle hay || occursIn needle t

/-- JS `hay.includes(needle)` on strings. -/
def strIncludes (hay needle : String) : Bool :=
  occursIn needle.toList hay.toList

/-- `replaceFirstL s pat repl`: replace the first occurrence of `pat`
in `s` by `repl` (no change when `pat` does not occur). -/
def replaceFirstL (s pat repl : List Char) : List Char :=
  match s with
  | [] => []
  | c :: t => if startsWithL pat s then repl ++ s.drop pat.length
              else c :: replaceFirstL t pat repl

/-- JS `String.prototype.replace` with a plain-string pattern: replace the
first occurrence only. -/
def strReplaceFirst (s pat repl : String) : String :=
  String.mk (replaceFirstL s.toList pat.toList repl.toList)

/-- UTF-8 encoding of one code point, as byte values. -/
def utf8Bytes (c : Char) : List Nat :=
  let n := c.toNat
  if n < 128 then [n]
  else if n < 2048 then [192 + n / 64, 128 + n % 64]
  else if n < 65536 then [224 + n / 4096, 128 + (n / 64) % 64, 128 + n % 64]
  else [240 + n / 262144, 128 + (n / 4096) % 64, 128 + (n / 64) % 64, 128 + n % 64]

/-- Upper-case hexadecimal digit for `n < 16`. -/
def hexDigitChar (n : Nat) : Char :=
  if n < 10 then Char.ofNat (48 + n) else Char.ofNat (55 + n)

/-- Is this byte one of the characters `encodeURIComponent` leaves alone
(letters, digits, and the marks minus, underscore, dot, bang, tilde,
star, single quote, and parentheses)? -/
def uriUnreservedByte (b : Nat) : Bool :=
  (65 ≤ b && b ≤ 90) || (97 ≤ b && b ≤ 122) || (48 ≤ b && b ≤ 57) ||
  (b == 45 || b == 95 || b == 46 || b == 33 || b == 126 || b == 42 ||
   b == 39 || b == 40 || b == 41)

/-- JS `encodeURIComponent`: percent-encode every UTF-8 byte outside the
unreserved set. -/
def encodeURIComponent (s : String) : String :=
  String.mk ((s.toList.map utf8Bytes).flatten.map (fun b =>
    if uriUnreservedByte b then [Char.ofNat b]
    else [Char.ofNat 37, hexDigitChar (b / 16), hexDigitChar (b % 16)])).flatten

/-- `URL_TEMPLATES` from `background.js` (the entries the fallback analyzer uses). -/
def urlTemplateAmazon : String := "https://www.amazon.in/s?k={QUERY}"
def urlTemplateFlights : String := "https://www.google.com/travel/flights?q={QUERY}"
def urlTemplateTracking : String := "https://www.bluedart.com/tracking"
def urlTemplateGoogle : String := "https://www.google.com/search?q={QUERY}"
def urlTemplateZomato : String := "https://www.zomato.com/search?q={QUERY}"

/-- The `selectors` field of an analysis result. -/
structure Selectors where
  primary : String
  secondary : String
deriving DecidableEq, Repr

/-- `AnalysisResult`: shape produced by `fallbackAnalysis` and consumed by
`performScraping` (fields `website`, `url`, `scraping_strategy`, `selectors`). -/
structure Analysis where
  website : String
  url : String
  scraping_strategy : String
  selectors : Selectors
deriving DecidableEq, Repr

/-- A raw item as built by the injected `extractPageContent` routine. -/
structure Item where
  title : String
  price : String
  link : String
  description : String
  rating : String
deriving DecidableEq, Repr

/-- `checkRateLimit` from `background.js`:
```
const now = Date.now();
const limit = this.rateLimiter.get(key);
if (limit && now - limit < 2000) { return false; }
this.rateLimiter.set(key, now);
return true;
```
State-passing version: returns the boolean together with the updated map.
The JS truthiness test `limit &&` is modelled by `t ≠ 0`; the subtraction
is over `Int`, as JS numbers can go negative. -/
def checkRateLimit (rl : List (String × Nat)) (key : String) (now : Nat) :
    Bool × List (String × Nat) :=
  match mapGet rl key with
  | some t =>
      if t ≠ 0 ∧ (now : Int) - t < 2000 then (false, rl)
      else (true, mapSet rl key now)
  | none => (true, mapSet rl key now)

/-- `fallbackAnalysis` from `background.js`: ordered keyword decision list
over the lowercased query. URL construction replaces the first (only)
occurrence of the placeholder, as JS `String.prototype.replace` does. -/
def fallbackAnalysis (query : String) : Analysis :=
  let lowerQuery := lowerStr query
  if strIncludes lowerQuery "laptop" || strIncludes lowerQuery "phone" ||
     strIncludes lowerQuery "product" then
    { website := "amazon"
      url := strReplaceFirst urlTemplateAmazon "{QUERY}" (encodeURIComponent query)
      scraping_strategy := "product_list"
      selectors :=
        { primary := "[data-component-type=\"s-search-result\"]"
          secondary := ".s-price, .a-price-whole" } }
  else if strIncludes lowerQuery "flight" || strIncludes lowerQuery "travel" then
    { website := "flights"
      url := strReplaceFirst urlTemplateFlights "{QUERY}" (encodeURIComponent query)
      scraping_strategy := "flight_search"
      selectors :=
        { primary := ".gws-flights-results__result"
          secondary := ".gws-flights-results__price" } }
  else if strIncludes lowerQuery "track" || strIncludes lowerQuery "package" then
    { website := "tracking"
      url := urlTemplateTracking
      scraping_strategy := "tracking_info"
      selectors := { primary := ".tracking-info", secondary := ".status" } }
  else if strIncludes lowerQuery "restaurant" || strIncludes lowerQuery "food" then
    { website := "zomato"
      url := strReplaceFirst urlTemplateZomato "{QUERY}" (encodeURIComponent query)
      scraping_strategy := "restaurant_search"
      selectors := { primary := ".search-result", secondary := ".rating, .cost" } }
  else
    { website := "google"
      url := strReplaceFirst urlTemplateGoogle "{QUERY}" (encodeURIComponent query)
      scraping_strategy := "general_search"
      selectors := { primary := ".g", secondary := ".r a" } }

/-- Observable side effects of a pipeline run: a `fetch` to the AI
endpoint (`fetchAI`), creation of a scraping tab with a given id
(`tabCreate`), and destruction of a tab (`tabRemove`). -/
inductive Effect where
  | fetchAI : Effect
  | tabCreate : Nat → Effect
  | tabRemove : Nat → Effect
deriving DecidableEq, Repr

/-- Outcome of one `fetch` round trip to the AI endpoint, as observed by
the callers in `background.js`:
* `netError msg` — the `fetch` promise rejected with message `msg`;
* `httpNotOk status` — a response arrived with `response.ok` false;
* `bodyJsonError msg` — `response.json()` threw with message `msg`;
* `okText t` — the body parsed, and `data.response || data.text ||`
  the empty string evaluated to the text `t`. -/
inductive AIOutcome where
  | netError : String → AIOutcome
  | httpNotOk : Nat → AIOutcome
  | bodyJsonError : String → AIOutcome
  | okText : String → AIOutcome
deriving DecidableEq, Repr

/-- The first occurrence of character `c` in `l`, as an index. -/
def idxOfFirst (c : Char) (l : List Char) : Option Nat :=
  match l with
  | [] => none
  | a :: t => if a == c then some 0 else (idxOfFirst c t).map (· + 1)

/-- The last occurrence of character `c` in `l`, as an index. -/
def idxOfLast (c : Char) (l : List Char) : Option Nat :=
  match l with
  | [] => none
  | a :: t =>
      match idxOfLast c t with
      | some i => some (i + 1)
      | none => if a == c then some 0 else none

def braceOpen : Char := Char.ofNat 123
def braceClose : Char := Char.ofNat 125

/-- The JS regular-expression match `text.match(/\x7b[\s\S]*\x7d/)`: the
(greedy) span from the first opening brace to the last closing brace, when
the first opening brace precedes the last closing brace; `none` otherwise. -/
def jsonObjMatch (s : String) : Option String :=
  let l := s.toList
  match idxOfFirst braceOpen l, idxOfLast braceClose l with
  | some p, some q =>
      if p < q then some (String.mk ((l.drop p).take (q - p + 1))) else none
  | _, _ => none

/-- `analyzeQueryWithGemma` from `background.js`. The AI round trip is the
environment value `env`; `jp` models the JS builtin `JSON.parse` applied
to the matched object text, viewed through the fields the program reads
from the parsed analysis (an `Analysis` record), or the thrown message.
Every failure path falls back to `fallbackAnalysis query`; the single
`fetch` attempt is recorded as a `fetchAI` effect. The prompt string sent
to the endpoint is not observable in any result and is not modelled. -/
def analyzeQueryWithGemma (jp : String → Except String Analysis)
    (query : String) (env : AIOutcome) : Analysis × List Effect :=
  match env with
  | .netError _ => (fallbackAnalysis query, [.fetchAI])
  | .httpNotOk _ => (fallbackAnalysis query, [.fetchAI])
  | .bodyJsonError _ => (fallbackAnalysis query, [.fetchAI])
  | .okText t =>
      match jsonObjMatch t with
      | none => (fallbackAnalysis query, [.fetchAI])
      | some m =>
          match jp m with
          | .ok a => (a, [.fetchAI])
          | .error _ => (fallbackAnalysis query, [.fetchAI])

/-- `ScrapingResult`: the value returned by `performScraping`
(`{ url, strategy, html, data }`). -/
structure ScrapingResult where
  url : String
  strategy : String
  html : String
  data : List Item
deriving DecidableEq, Repr

/-- What the injected `extractPageContent` routine handed back through
`chrome.scripting.executeScript` (`results[0].result`): the page captures
`html` and `data`. The routine catches its own exceptions and returns
empty `html` and `data` in that case, so it always yields this shape. -/
structure PageContent where
  html : String
  data : List Item
deriving DecidableEq, Repr

/-- Environment for one `performScraping` run:
* `createTab` — outcome of `chrome.tabs.create` (the new tab id, or the
  rejection message);
* `execScript` — outcome of `chrome.scripting.executeScript` (the injected
  return value of the injected routine, or the rejection message);
* `removeTab` — outcome of `chrome.tabs.remove`.
`waitForTabLoad` wraps a promise that only ever resolves (it has no
rejection path), so it contributes nothing observable. -/
structure ScrapeEnv where
  createTab : Except String Nat
  execScript : Except String PageContent
  removeTab : Except String Unit

/-- `performScraping` from `background.js`. Any rejection inside the `try`
is caught and re-thrown as `Scraping failed: ` + message; the
`chrome.tabs.remove` call sits between the script execution and the
`return`, on the success path only. The effect trace records tab creation
and (successful) tab removal. -/
def performScraping (env : ScrapeEnv) (analysisResult : Analysis) :
    Except String ScrapingResult × List Effect :=
  match env.createTab with
  | .error e => (.error ("Scraping failed: " ++ e), [])
  | .ok tabId =>
      match env.execScript with
      | .error e => (.error ("Scraping failed: " ++ e), [.tabCreate tabId])
      | .ok pc =>
          match env.removeTab with
          | .error e => (.error ("Scraping failed: " ++ e), [.tabCreate tabId])
          | .ok _ =>
              (.ok { url := analysisResult.url
                     strategy := analysisResult.scraping_strategy
                     html := pc.html
                     data := pc.data },
               [.tabCreate tabId, .tabRemove tabId])

/-- The common record shape of the `direct_scraping` and `fallback`
results of `extractDataWithGemma` (the `error` field is absent, i.e.
`none`, in the direct case). -/
structure ExtractionRes where
  success : Bool
  source : String
  url : String
  strategy : String
  extracted_data : List Item
  total_results : Nat
  error : Option String
  timestamp : Nat
deriving DecidableEq, Repr

/-- `ExtractedResult`: the value returned by `extractDataWithGemma` and
stored in the cache. The `gemma` constructor is the
`source: "gemma_extraction"` success case; the program never inspects the
parsed payload again, so the constructor carries the matched JSON text it
was parsed from. -/
inductive ExtractionOut where
  | res : ExtractionRes → ExtractionOut
  | gemma : String → Nat → ExtractionOut
deriving DecidableEq, Repr

/-- `extractDataWithGemma` from `background.js`. `env` is the AI round
trip for the extraction `fetch`; `jpE` models `JSON.parse` on the matched
object text (success, or thrown message — the parsed value itself is
never read before being spread into the result). `now` is `Date.now()`
for the timestamps. The `catch` block converts every failure into a
`fallback` result carrying `scrapingResult.data || []` and
`scrapingResult.data?.length || 0`; with `data` always an array those are
`sr.data` and `sr.data.length`. The truncated HTML slice only feeds the
prompt and is not modelled. -/
def extractDataWithGemma (jpE : String → Except String Unit)
    (env : AIOutcome) (now : Nat) (sr : ScrapingResult) :
    ExtractionOut × List Effect :=
  if sr.data.length > 0 then
    (.res { success := true
            source := "direct_scraping"
            url := sr.url
            strategy := sr.strategy
            extracted_data := sr.data
            total_results := sr.data.length
            error := none
            timestamp := now }, [])
  else
    let fallbackRes : String → ExtractionOut := fun msg =>
      .res { success := false
             source := "fallback"
             url := sr.url
             strategy := sr.strategy
             extracted_data := sr.data
             total_results := sr.data.length
             error := some msg
             timestamp := now }
    match env with
    | .netError m => (fallbackRes m, [.fetchAI])
    | .httpNotOk status =>
        (fallbackRes ("Gemma extraction error: " ++ toString status), [.fetchAI])
    | .bodyJsonError m => (fallbackRes m, [.fetchAI])
    | .okText t =>
        match jsonObjMatch t with
        | none => (fallbackRes "No valid JSON found in Gemma response", [.fetchAI])
        | some mt =>
            match jpE mt with
            | .ok _ => (.gemma mt now, [.fetchAI])
            | .error m => (fallbackRes m, [.fetchAI])

/-- One in-flight request marker (`{ query, startTime }`). -/
structure ActiveReq where
  query : String
  startTime : Nat
deriving DecidableEq, Repr

/-- The mutable state of the orchestrator: the three `Map`s constructed
by `WebScrapingOrchestrator`. -/
structure OrchState where
  activeRequests : List (String × ActiveReq)
  cache : List (String × ExtractionOut)
  rateLimiter : List (String × Nat)
deriving DecidableEq, Repr

def emptyState : OrchState := { activeRequests := [], cache := [], rateLimiter := [] }

/-- The cache key `query_` + `query.toLowerCase().trim()`. -/
def cacheKeyOf (query : String) : String :=
  "query_" ++ strTrim (lowerStr query)

/-- The message of the rate-limit rejection thrown by `processQuery`. -/
def rateLimitMsg : String :=
  "Rate limit exceeded. Please wait before making another request."

/-- Environment for one `processQuery` invocation: the `JSON.parse`
behaviours, the two AI round trips (analysis and extraction), the tab
API outcomes, and the generated request id (`req_` + time + random). -/
structure QueryEnv where
  jp : String → Except String Analysis
  aiA : AIOutcome
  scrape : ScrapeEnv
  jpE : String → Except String Unit
  aiE : AIOutcome
  reqId : String

/-- `processQuery` from `background.js`, as a state-passing function
returning the result (or the thrown message), the updated orchestrator
state, and the trace of observable effects. Stage order is exactly that
of the source: rate-limit check (which records the timestamp when it
passes), cache lookup, in-flight registration, analysis, scraping,
extraction, cache store, in-flight removal; the `catch` block removes the
in-flight marker and re-throws. -/
def processQuery (env : QueryEnv) (st : OrchState) (query : String) (now : Nat) :
    Except String ExtractionOut × OrchState × List Effect :=
  match checkRateLimit st.rateLimiter query now with
  | (false, rl) =>
      (.error rateLimitMsg,
       { st with rateLimiter := rl
                 activeRequests := mapDelete st.activeRequests env.reqId }, [])
  | (true, rl) =>
      match mapGet st.cache (cacheKeyOf query) with
      | some v => (.ok v, { st with rateLimiter := rl }, [])
      | none =>
          match performScraping env.scrape (analyzeQueryWithGemma env.jp query env.aiA).1 with
          | (.error e, eff2) =>
              (.error e,
               { st with rateLimiter := rl
                         activeRequests :=
                           mapDelete (mapSet st.activeRequests env.reqId ⟨query, now⟩)
                             env.reqId },
               (analyzeQueryWithGemma env.jp query env.aiA).2 ++ eff2)
          | (.ok sr, eff2) =>
              (.ok (extractDataWithGemma env.jpE env.aiE now sr).1,
               { st with rateLimiter := rl
                         cache := mapSet st.cache (cacheKeyOf query)
                           (extractDataWithGemma env.jpE env.aiE now sr).1
                         activeRequests :=
                           mapDelete (mapSet st.activeRequests env.reqId ⟨query, now⟩)
                             env.reqId },
               (analyzeQueryWithGemma env.jp query env.aiA).2 ++ eff2
                 ++ (extractDataWithGemma env.jpE env.aiE now sr).2)

/-- The `clearCache` branch of `handleMessage`: `this.cache.clear()`
followed by a success response carrying the message `Cache cleared`. -/
def handleClearCache (st : OrchState) : OrchState × Bool × String :=
  ({ st with cache := [] }, true, "Cache cleared")

/-! Helper lemmas about the `Map` model. -/

theorem mapGet_mapSet_self {α : Type} (m : List (String × α)) (k : String) (v : α) :
    mapGet (mapSet m k v) k = some v := by
  induction m with
  | nil => simp [mapSet, mapGet, List.find?]
  | cons p rest ih =>
      by_cases h : p.1 == k
      · simp [mapSet, h, mapGet, List.find?]
      · simp only [mapSet, h, if_false, Bool.false_eq_true]
        simpa [mapGet, List.find?, h] using ih

theorem checkRateLimit_snd_of_true (rl : List (String × Nat)) (key : String) (now : Nat)
    (h : (checkRateLimit rl key now).1 = true) :
    (checkRateLimit rl key now).2 = mapSet rl key now := by
  cases hm : mapGet rl key with
  | none => simp [checkRateLimit, hm]
  | some t =>
      by_cases hc : t ≠ 0 ∧ (now : Int) - t < 2000
      · simp [checkRateLimit, hm, hc] at h
      · simp [checkRateLimit, hm, hc]

/-! Claim theorems. -/

/-- C2 amended: `checkRateLimit(key)` returns false if and only if a
prior timestamp for the key exists and the elapsed time since it is
strictly below 2000 ms; otherwise it returns true. Consequently, a second
invocation with the same key less than 2000 ms after an *allowed* one is
rejected, and an invocation 2000 ms or more after the last allowed one is
accepted. (Rejected invocations do not refresh the timestamp, so two
invocations less than 2000 ms apart need not have the second rejected
when the first was itself rejected — see the counterexample. Timestamps
produced by `Date.now()` are positive, whence the positivity
hypotheses.) -/
theorem checkRateLimit_correct (rl : List (String × Nat)) (key : String) (n1 n2 : Nat)
    (hpos : ∀ t, mapGet rl key = some t → 0 < t) (h1 : 0 < n1) :
    ((checkRateLimit rl key n1).1 = false ↔
      ∃ t, mapGet rl key = some t ∧ (n1 : Int) - t < 2000)
    ∧ ((checkRateLimit rl key n1).1 = true →
        (((n2 : Int) - n1 < 2000 →
            (checkRateLimit (checkRateLimit rl key n1).2 key n2).1 = false)
        ∧ (2000 ≤ (n2 : Int) - n1 →
            (checkRateLimit (checkRateLimit rl key n1).2 key n2).1 = true))) := by
  constructor
  · cases hm : mapGet rl key with
    | none => simp [checkRateLimit, hm]
    | some t =>
        have ht : t ≠ 0 := Nat.pos_iff_ne_zero.mp (hpos t hm)
        by_cases hc : (n1 : Int) - t < 2000
        · simp [checkRateLimit, hm, ht, hc]
        · simp [checkRateLimit, hm, ht, hc]
  · intro htrue
    rw [checkRateLimit_snd_of_true rl key n1 htrue]
    have hget := mapGet_mapSet_self rl key n1
    have hne : n1 ≠ 0 := Nat.pos_iff_ne_zero.mp h1
    constructor
    · intro hlt
      simp [checkRateLimit, hget, hne, hlt]
    · intro hge
      simp [checkRateLimit, hget, hne, not_lt.mpr hge]

/-- C2 witness: the theorem instantiated at the map `[("k", 100)]` with a
call at 2500 ms and a follow-up at 3000 ms. -/
theorem checkRateLimit_correct_witness :
    (0 < 2500) ∧
    (((checkRateLimit [("k", 100)] "k" 2500).1 = false ↔
      ∃ t : Nat, mapGet [("k", 100)] "k" = some t ∧ ((2500 : Nat) : Int) - (t : Int) < 2000)
    ∧ ((checkRateLimit [("k", 100)] "k" 2500).1 = true →
        ((((3000 : Nat) : Int) - ((2500 : Nat) : Int) < 2000 →
            (checkRateLimit (checkRateLimit [("k", 100)] "k" 2500).2 "k" 3000).1 = false)
        ∧ (2000 ≤ ((3000 : Nat) : Int) - ((2500 : Nat) : Int) →
            (checkRateLimit (checkRateLimit [("k", 100)] "k" 2500).2 "k" 3000).1 = true)))) :=
  ⟨by norm_num,
   checkRateLimit_correct [("k", 100)] "k" 2500 3000
     (fun t ht => by
        simp [show mapGet [("k", 100)] "k" = some 100 from rfl] at ht
        omega)
     (by norm_num)⟩

/-- C2 counterexample: two invocations with the same raw key less than
2000 ms apart need not have the second rejected. After an allowed call at
100 ms, invocation A at 2050 ms is rejected (1950 ms elapsed) and does
not refresh the timestamp; invocation B at 3000 ms — only 950 ms after
A — is measured against the stored 100 ms and is accepted. -/
theorem checkRateLimit_close_pair_cex :
    checkRateLimit [] "k" 100 = (true, [("k", 100)]) ∧
    checkRateLimit [("k", 100)] "k" 2050 = (false, [("k", 100)]) ∧
    ((3000 : Nat) - 2050 < 2000) ∧
    (checkRateLimit [("k", 100)] "k" 3000).1 = true := by
  decide

/-- C3 counterexample: with the entry `("k", 100)` present, the call
`checkRateLimit "k"` at time 500 fails, and the map still holds timestamp
100 afterwards — the time of the failing call (500) was not recorded. -/
theorem checkRateLimit_fail_no_record_cex :
    (checkRateLimit [("k", 100)] "k" 500).1 = false ∧
    (checkRateLimit [("k", 100)] "k" 500).2 = [("k", 100)] ∧
    mapGet (checkRateLimit [("k", 100)] "k" 500).2 "k" ≠ some 500 := by
  decide

/-- C3 amended: `checkRateLimit` records the current timestamp for the key
only when it returns true (allow); when it returns false (deny) it leaves
the rate-limiter map completely unchanged. -/
theorem checkRateLimit_timestamp (rl : List (String × Nat)) (key : String) (now : Nat) :
    (if (checkRateLimit rl key now).1 then
       mapGet (checkRateLimit rl key now).2 key = some now
     else (checkRateLimit rl key now).2 = rl) := by
  cases hm : mapGet rl key with
  | none => simp [checkRateLimit, hm, mapGet_mapSet_self]
  | some t =>
      by_cases hc : t ≠ 0 ∧ (now : Int) - t < 2000
      · simp [checkRateLimit, hm, hc]
      · simp [checkRateLimit, hm, hc, mapGet_mapSet_self]

/-- C5: `fallbackAnalysis` is a pure first-match-wins decision list over
the lowercased query, ordered e-commerce, flights, tracking, restaurants,
default. The four sample queries resolve as the spec states, and queries
matching several branches resolve to the earliest matching branch. -/
theorem fallbackAnalysis_decision_list :
    ((fallbackAnalysis "gaming laptop under 80000").website = "amazon"
      ∧ (fallbackAnalysis "gaming laptop under 80000").scraping_strategy = "product_list")
    ∧ ((fallbackAnalysis "flights to Mumbai").website = "flights"
      ∧ (fallbackAnalysis "flights to Mumbai").scraping_strategy = "flight_search")
    ∧ ((fallbackAnalysis "restaurants near me").website = "zomato"
      ∧ (fallbackAnalysis "restaurants near me").scraping_strategy = "restaurant_search")
    ∧ ((fallbackAnalysis "xyz random text").website = "google"
      ∧ (fallbackAnalysis "xyz random text").scraping_strategy = "general_search")
    ∧ (fallbackAnalysis "laptop flight track restaurant").scraping_strategy = "product_list"
    ∧ (fallbackAnalysis "flight track restaurant").scraping_strategy = "flight_search"
    ∧ (fallbackAnalysis "track restaurant").scraping_strategy = "tracking_info"
    ∧ (fallbackAnalysis "restaurant").scraping_strategy = "restaurant_search" := by
  decide

/-- C6: on a `ScrapingResult` with non-empty `data`, `extractDataWithGemma`
short-circuits to a `direct_scraping` result that wraps the input data
with its length as `total_results`, and performs no AI call (empty effect
trace). -/
theorem extractDataWithGemma_direct (jpE : String → Except String Unit)
    (env : AIOutcome) (now : Nat) (sr : ScrapingResult) (h : sr.data ≠ []) :
    extractDataWithGemma jpE env now sr =
      (.res { success := true
              source := "direct_scraping"
              url := sr.url
              strategy := sr.strategy
              extracted_data := sr.data
              total_results := sr.data.length
              error := none
              timestamp := now }, []) := by
  have hlen : 0 < sr.data.length := List.length_pos.mpr h
  simp [extractDataWithGemma, hlen]

/-- C6 witness: the theorem at a concrete one-item scraping result. -/
theorem extractDataWithGemma_direct_witness :
    ([⟨"t", "p", "l", "d", "r"⟩] ≠ ([] : List Item)) ∧
    extractDataWithGemma (fun _ => .ok ()) (.netError "down") 7
        ⟨"u", "s", "h", [⟨"t", "p", "l", "d", "r"⟩]⟩ =
      (.res { success := true
              source := "direct_scraping"
              url := "u"
              strategy := "s"
              extracted_data := [⟨"t", "p", "l", "d", "r"⟩]
              total_results := 1
              error := none
              timestamp := 7 }, []) :=
  ⟨by decide,
   extractDataWithGemma_direct (fun _ => .ok ()) (.netError "down") 7
     ⟨"u", "s", "h", [⟨"t", "p", "l", "d", "r"⟩]⟩ (by decide)⟩

/-- The failure condition of the AI analysis call, read off the control
flow of `analyzeQueryWithGemma`: the fetch rejected, the response was not
ok, its body did not parse, the response text holds no brace-delimited
substring, or the matched substring fails `JSON.parse`. -/
def aiCallFails (jp : String → Except String Analysis) (env : AIOutcome) : Bool :=
  match env with
  | .okText t =>
      match jsonObjMatch t with
      | none => true
      | some m =>
          match jp m with
          | .error _ => true
          | .ok _ => false
  | _ => true

/-- C7: the Query Analyzer never fails outward — on every failing AI round
trip (network error, non-ok HTTP status, body parse failure, no
brace-delimited JSON-object substring, or unparseable matched substring)
`analyzeQueryWithGemma` returns exactly the Fallback Analyzer output for
the same query. -/
theorem analyzeQueryWithGemma_fallback (jp : String → Except String Analysis)
    (query : String) (env : AIOutcome) (h : aiCallFails jp env = true) :
    analyzeQueryWithGemma jp query env = (fallbackAnalysis query, [.fetchAI]) := by
  cases env with
  | netError m => rfl
  | httpNotOk s => rfl
  | bodyJsonError m => rfl
  | okText t =>
      unfold aiCallFails at h
      unfold analyzeQueryWithGemma
      cases hm : jsonObjMatch t with
      | none => simp [hm]
      | some m =>
          simp only [hm] at h ⊢
          cases hj : jp m with
          | ok a => simp [hj] at h
          | error e => simp [hj]

/-- C7 witness: a response text with no JSON-object substring makes the
analyzer return the fallback analysis for the query. -/
theorem analyzeQueryWithGemma_fallback_witness :
    aiCallFails (fun _ => .ok (fallbackAnalysis "x")) (.okText "no json here") = true ∧
    analyzeQueryWithGemma (fun _ => .ok (fallbackAnalysis "x")) "flights to Mumbai"
        (.okText "no json here") =
      (fallbackAnalysis "flights to Mumbai", [.fetchAI]) :=
  ⟨by decide,
   analyzeQueryWithGemma_fallback (fun _ => .ok (fallbackAnalysis "x"))
     "flights to Mumbai" (.okText "no json here") (by decide)⟩

/-- The failure condition of the AI extraction call, read off the control
flow of `extractDataWithGemma`. -/
def aiExtractFails (jpE : String → Except String Unit) (env : AIOutcome) : Bool :=
  match env with
  | .okText t =>
      match jsonObjMatch t with
      | none => true
      | some m =>
          match jpE m with
          | .error _ => true
          | .ok _ => false
  | _ => true

/-- The message carried by the failing AI extraction path: the rejection
or thrown message, `Gemma extraction error: ` + status for a non-ok
response, or the fixed no-JSON message. -/
def extractFailMsg (jpE : String → Except String Unit) (env : AIOutcome) : String :=
  match env with
  | .netError m => m
  | .httpNotOk status => "Gemma extraction error: " ++ toString status
  | .bodyJsonError m => m
  | .okText t =>
      match jsonObjMatch t with
      | none => "No valid JSON found in Gemma response"
      | some m =>
          match jpE m with
          | .error msg => msg
          | .ok _ => ""

/-- C8: on a `ScrapingResult` with empty `data`, `extractDataWithGemma`
never throws — every failure of the AI extraction path is caught and
turned into a `fallback`-sourced result carrying the empty raw data, a
matching `total_results` of 0, and the error message. (That the function
cannot throw at all is expressed by its total type: every `catch` of the
source is part of the definition.) -/
theorem extractDataWithGemma_fallback (jpE : String → Except String Unit)
    (env : AIOutcome) (now : Nat) (sr : ScrapingResult) (hdata : sr.data = [])
    (hfail : aiExtractFails jpE env = true) :
    extractDataWithGemma jpE env now sr =
      (.res { success := false
              source := "fallback"
              url := sr.url
              strategy := sr.strategy
              extracted_data := []
              total_results := 0
              error := some (extractFailMsg jpE env)
              timestamp := now }, [.fetchAI]) := by
  cases env with
  | netError m => simp [extractDataWithGemma, extractFailMsg, hdata]
  | httpNotOk s => simp [extractDataWithGemma, extractFailMsg, hdata]
  | bodyJsonError m => simp [extractDataWithGemma, extractFailMsg, hdata]
  | okText t =>
      unfold aiExtractFails at hfail
      cases hm : jsonObjMatch t with
      | none => simp [extractDataWithGemma, extractFailMsg, hdata, hm]
      | some m =>
          simp only [hm] at hfail
          cases hj : jpE m with
          | ok u => simp [hj] at hfail
          | error msg => simp [extractDataWithGemma, extractFailMsg, hdata, hm, hj]

/-- C8 witness: a response with no JSON-object substring on an empty
scrape degrades to the `fallback` result with the fixed message. -/
theorem extractDataWithGemma_fallback_witness :
    (⟨"u", "s", "h", []⟩ : ScrapingResult).data = [] ∧
    aiExtractFails (fun _ => .ok ()) (.okText "nothing") = true ∧
    extractDataWithGemma (fun _ => .ok ()) (.okText "nothing") 5 ⟨"u", "s", "h", []⟩ =
      (.res { success := false
              source := "fallback"
              url := "u"
              strategy := "s"
              extracted_data := []
              total_results := 0
              error := some (extractFailMsg (fun _ => .ok ()) (.okText "nothing"))
              timestamp := 5 }, [.fetchAI]) :=
  ⟨rfl, by decide,
   extractDataWithGemma_fallback (fun _ => .ok ()) (.okText "nothing") 5
     ⟨"u", "s", "h", []⟩ rfl (by decide)⟩

/-- C1 (code bug): `performScraping` destroys its tab only on the success
path. With tab creation succeeding (id 7) and the in-page script
execution rejecting, the wrapped error escapes while the effect trace
holds the tab creation and no `tabRemove` at all; on the success path the
tab is removed exactly once. The claimed guaranteed-cleanup contract
fails on the error path. -/
theorem performScraping_leaks_tab_on_failure :
    performScraping ⟨.ok 7, .error "Cannot access contents of the page", .ok ()⟩
        (fallbackAnalysis "xyz random text") =
      (.error "Scraping failed: Cannot access contents of the page", [.tabCreate 7]) ∧
    ((performScraping ⟨.ok 7, .error "Cannot access contents of the page", .ok ()⟩
        (fallbackAnalysis "xyz random text")).2.count (.tabRemove 7) = 0) ∧
    ((performScraping ⟨.ok 7, .ok ⟨"h", []⟩, .ok ()⟩
        (fallbackAnalysis "xyz random text")).2.count (.tabRemove 7) = 1) := by
  decide

/-- C9: if any stage of `processQuery` throws (rate-limit rejection or a
scrape failure — the analysis and extraction stages cannot throw), the
result cache is left exactly as it was: no entry is ever stored for a
query whose pipeline did not complete. -/
theorem processQuery_error_cache_unchanged (env : QueryEnv) (st : OrchState)
    (query : String) (now : Nat) (e : String) (st' : OrchState) (eff : List Effect)
    (h : processQuery env st query now = (.error e, st', eff)) :
    st'.cache = st.cache := by
  unfold processQuery at h
  split at h
  · simp only [Prod.mk.injEq] at h
    obtain ⟨-, h2, -⟩ := h
    rw [← h2]
  · split at h
    · simp at h
    · split at h
      · simp only [Prod.mk.injEq] at h
        obtain ⟨-, h2, -⟩ := h
        rw [← h2]
      · simp at h

/-- Any successful `processQuery` call leaves its result stored in the
cache under the normalized key (either it was already there — cache hit —
or the pipeline stored it). -/
theorem processQuery_ok_cached (env : QueryEnv) (st : OrchState) (query : String)
    (now : Nat) (r : ExtractionOut) (st' : OrchState) (eff : List Effect)
    (h : processQuery env st query now = (.ok r, st', eff)) :
    mapGet st'.cache (cacheKeyOf query) = some r := by
  unfold processQuery at h
  split at h
  · simp at h
  · split at h
    · rename_i v hv
      simp only [Prod.mk.injEq, Except.ok.injEq] at h
      obtain ⟨h1, h2, -⟩ := h
      rw [← h2, ← h1]
      exact hv
    · split at h
      · simp at h
      · simp only [Prod.mk.injEq, Except.ok.injEq] at h
        obtain ⟨h1, h2, -⟩ := h
        rw [← h2, ← h1]
        exact mapGet_mapSet_self ..

/-- C9 witness: a rate-limited call errors and leaves the cache as it was. -/
theorem processQuery_error_cache_unchanged_witness :
    processQuery
        ⟨fun _ => .error "p", .netError "down",
         ⟨.ok 1, .ok ⟨"h", []⟩, .ok ()⟩, fun _ => .error "p", .netError "down", "r1"⟩
        ⟨[], [], [("q", 100)]⟩ "q" 600 =
      (.error rateLimitMsg, ⟨[], [], [("q", 100)]⟩, []) ∧
    (⟨[], [], [("q", 100)]⟩ : OrchState).cache = (⟨[], [], [("q", 100)]⟩ : OrchState).cache :=
  ⟨by decide,
   processQuery_error_cache_unchanged
     ⟨fun _ => .error "p", .netError "down",
      ⟨.ok 1, .ok ⟨"h", []⟩, .ok ()⟩, fun _ => .error "p", .netError "down", "r1"⟩
     ⟨[], [], [("q", 100)]⟩ "q" 600 rateLimitMsg ⟨[], [], [("q", 100)]⟩ [] (by decide)⟩

/-- A sample raw item, environment, and first-call outcome, used to
instantiate the pipeline theorems on concrete runs. The environment has
the AI endpoint down (both stages fall back deterministically) and a
one-item scrape of the resolved page. -/
def sampleItem : Item := ⟨"t", "p", "l", "d", "r"⟩

def sampleEnv : QueryEnv :=
  { jp := fun _ => .error "parse"
    aiA := .netError "down"
    scrape := { createTab := .ok 1
                execScript := .ok ⟨"h", [sampleItem]⟩
                removeTab := .ok () }
    jpE := fun _ => .error "parse"
    aiE := .netError "down"
    reqId := "r1" }

/-- The result of `processQuery sampleEnv emptyState "q" 100`. -/
def sampleResult : ExtractionOut :=
  .res { success := true
         source := "direct_scraping"
         url := "https://www.google.com/search?q=q"
         strategy := "general_search"
         extracted_data := [sampleItem]
         total_results := 1
         error := none
         timestamp := 100 }

/-- The orchestrator state after `processQuery sampleEnv emptyState "q" 100`. -/
def sampleState1 : OrchState :=
  { activeRequests := []
    cache := [("query_q", sampleResult)]
    rateLimiter := [("q", 100)] }

/-- C4 counterexample: the rate-limit check runs before the cache lookup,
so a second call with the same raw query 500 ms after a successful first
call is rejected with the rate-limit error instead of returning the still
cached identical result. -/
theorem processQuery_second_call_rate_limited_cex :
    processQuery sampleEnv emptyState "q" 100 =
      (.ok sampleResult, sampleState1, [.fetchAI, .tabCreate 1, .tabRemove 1]) ∧
    mapGet sampleState1.cache (cacheKeyOf "q") = some sampleResult ∧
    (processQuery sampleEnv sampleState1 "q" 600).1 = .error rateLimitMsg := by
  decide

/-- C4 amended: when the first call succeeds and the second call, with the
same normalized query, passes the rate limiter (for example, issued at
least 2000 ms after the last allowed attempt with that raw key, or with a
different raw key), the second call returns the identical cached result
with an empty effect trace — no analysis call, no network call, no tab
creation. -/
theorem processQuery_cached_second_call (env1 env2 : QueryEnv) (st : OrchState)
    (q1 q2 : String) (n1 n2 : Nat) (r : ExtractionOut) (st1 : OrchState)
    (eff : List Effect)
    (h1 : processQuery env1 st q1 n1 = (.ok r, st1, eff))
    (hkey : cacheKeyOf q2 = cacheKeyOf q1)
    (hrl : (checkRateLimit st1.rateLimiter q2 n2).1 = true) :
    processQuery env2 st1 q2 n2 =
      (.ok r, { st1 with rateLimiter := (checkRateLimit st1.rateLimiter q2 n2).2 }, []) := by
  have hc : mapGet st1.cache (cacheKeyOf q2) = some r := by
    rw [hkey]
    exact processQuery_ok_cached env1 st q1 n1 r st1 eff h1
  unfold processQuery
  rcases hcr : checkRateLimit st1.rateLimiter q2 n2 with ⟨b, rl⟩
  rw [hcr] at hrl
  simp only at hrl
  subst hrl
  simp [hcr, hc]

/-- C4 amended witness: 4900 ms after the sample first call, the second
call with the same raw query returns the identical cached result and
performs no effects. -/
theorem processQuery_cached_second_call_witness :
    processQuery sampleEnv emptyState "q" 100 =
      (.ok sampleResult, sampleState1, [.fetchAI, .tabCreate 1, .tabRemove 1]) ∧
    cacheKeyOf "q" = cacheKeyOf "q" ∧
    (checkRateLimit sampleState1.rateLimiter "q" 5000).1 = true ∧
    processQuery sampleEnv sampleState1 "q" 5000 =
      (.ok sampleResult,
       { sampleState1 with rateLimiter := (checkRateLimit sampleState1.rateLimiter "q" 5000).2 },
       []) :=
  ⟨by decide, rfl, by decide,
   processQuery_cached_second_call sampleEnv sampleEnv emptyState "q" "q" 100 5000
     sampleResult sampleState1 [.fetchAI, .tabCreate 1, .tabRemove 1]
     (by decide) rfl (by decide)⟩

/-- C10 counterexample: the rate limiter records timestamps only for
allowed calls, so "less than 2000 ms after its last attempt" does not
imply rejection. Run: allowed success at 100 (cached), rejected attempt
at 1000, `clearCache`, re-issue at 2200 — only 1200 ms after the last
attempt — and the pipeline re-runs (tab creation and all) instead of
being rejected. -/
theorem clearCache_rate_limit_cex :
    (processQuery sampleEnv sampleState1 "q" 1000).1 = .error rateLimitMsg ∧
    (processQuery sampleEnv sampleState1 "q" 1000).2.1 = sampleState1 ∧
    (handleClearCache sampleState1).1 =
      ({ activeRequests := [], cache := [], rateLimiter := [("q", 100)] } : OrchState) ∧
    ((2200 : Nat) - 1000 < 2000) ∧
    (processQuery sampleEnv (handleClearCache sampleState1).1 "q" 2200).1 ≠ .error rateLimitMsg ∧
    (processQuery sampleEnv (handleClearCache sampleState1).1 "q" 2200).2.2 =
      [.fetchAI, .tabCreate 1, .tabRemove 1] := by
  decide

/-- C10 amended: `clearCache` empties only the result cache, leaving the
rate-limiter and active-requests maps unchanged; consequently re-issuing
a just-cleared query with the same raw key less than 2000 ms after the
last attempt that passed the rate limiter (the recorded timestamp) is
rejected by the rate limiter, with no pipeline effects. -/
theorem handleClearCache_frame (st : OrchState) (env : QueryEnv) (q : String)
    (t now : Nat) (hget : mapGet st.rateLimiter q = some t) (ht : 0 < t)
    (hlt : (now : Int) - t < 2000) :
    (handleClearCache st).1.cache = []
    ∧ (handleClearCache st).1.rateLimiter = st.rateLimiter
    ∧ (handleClearCache st).1.activeRequests = st.activeRequests
    ∧ processQuery env (handleClearCache st).1 q now =
        (.error rateLimitMsg,
         { activeRequests := mapDelete st.activeRequests env.reqId
           cache := []
           rateLimiter := st.rateLimiter }, []) := by
  have hne : t ≠ 0 := Nat.pos_iff_ne_zero.mp ht
  have hcr : checkRateLimit st.rateLimiter q now = (false, st.rateLimiter) := by
    simp [checkRateLimit, hget, hne, hlt]
  refine ⟨rfl, rfl, rfl, ?_⟩
  unfold processQuery handleClearCache
  simp [hcr]

/-- C10 amended witness: after clearing the sample state, a call at 1900
ms (less than 2000 ms after the recorded timestamp 100) is rejected with
the state otherwise untouched. -/
theorem handleClearCache_frame_witness :
    mapGet sampleState1.rateLimiter "q" = some 100 ∧ (0 < 100) ∧
    (((1900 : Nat) : Int) - ((100 : Nat) : Int) < 2000) ∧
    ((handleClearCache sampleState1).1.cache = []
    ∧ (handleClearCache sampleState1).1.rateLimiter = sampleState1.rateLimiter
    ∧ (handleClearCache sampleState1).1.activeRequests = sampleState1.activeRequests
    ∧ processQuery sampleEnv (handleClearCache sampleState1).1 "q" 1900 =
        (.error rateLimitMsg,
         { activeRequests := mapDelete sampleState1.activeRequests sampleEnv.reqId
           cache := []
           rateLimiter := sampleState1.rateLimiter }, [])) :=
  ⟨rfl, by norm_num, by norm_num,
   handleClearCache_frame sampleState1 sampleEnv "q" 100 1900 rfl (by norm_num) (by norm_num)⟩

end Scraper
